import Mathlib

/-!
Verification of the MetaMask inpage provider (src/MetamaskInpageProvider.js).

The development shallowly embeds the provider's state-synchronization logic:
JavaScript values are modelled by the mutual inductive `JSVal` / `JSList` /
`JSFields`; the provider's mutable fields become the record `ProviderState`;
each handler of the source becomes a pure function returning the new state
together with the events it emits, the diagnostics it logs, and the
fire-and-forget RPC payloads it sends (`Effects`).
-/

/- Model of a JavaScript value, restricted to the shapes the provider
manipulates: null, undefined, booleans, (integer) numbers, strings, arrays
and plain objects. Objects are association lists of string keys; arrays are
lists. (Functions, NaN, Date and RegExp values never reach the modelled
code paths.) -/
mutual

/-- Model of a JavaScript value. -/
inductive JSVal where
  | vNull
  | vUndefined
  | vBool (b : Bool)
  | vNum (n : Int)
  | vStr (s : String)
  | vArr (elems : JSList)
  | vObj (fields : JSFields)
deriving DecidableEq, Repr

inductive JSList where
  | nil
  | cons (head : JSVal) (tail : JSList)
deriving DecidableEq, Repr

inductive JSFields where
  | nil
  | cons (key : String) (val : JSVal) (tail : JSFields)
deriving DecidableEq, Repr

end

/-- JavaScript `typeof`. Note `typeof null` is the string "object". -/
def typeOf : JSVal → String
  | .vNull => "object"
  | .vUndefined => "undefined"
  | .vBool _ => "boolean"
  | .vNum _ => "number"
  | .vStr _ => "string"
  | .vArr _ => "object"
  | .vObj _ => "object"

/-- JavaScript `Array.isArray`. -/
def isArrayB : JSVal → Bool
  | .vArr _ => true
  | _ => false

/-- JavaScript falsiness: null, undefined, false, 0 and the empty string are
falsy; every other modelled value is truthy. -/
def jsFalsy : JSVal → Bool
  | .vNull => true
  | .vUndefined => true
  | .vBool b => !b
  | .vNum n => n == 0
  | .vStr s => s == ""
  | _ => false

/-- JavaScript truthiness. -/
def jsTruthy (v : JSVal) : Bool := ! jsFalsy v

/-- JavaScript `a || b`. -/
def jsOr (a b : JSVal) : JSVal := if jsFalsy a then b else a

/-- First binding of a key in an object's field list (JavaScript objects have
at most one binding per key; the modelled payloads are built that way). -/
def lookupField (k : String) : JSFields → Option JSVal
  | .nil => none
  | .cons k2 v rest => if k2 = k then some v else lookupField k rest

/-- Number of fields of an object. -/
def fieldsLength : JSFields → Nat
  | .nil => 0
  | .cons _ _ rest => fieldsLength rest + 1

/-- JavaScript property read `v[k]`: undefined when the key is absent or the
value is not an object. (A property read on null or undefined throws in
JavaScript; the modelled code reads properties only of values already known
to be non-null, except `request`, whose null case is modelled explicitly in
`requestValidate`.) -/
def jsGet (v : JSVal) (k : String) : JSVal :=
  match v with
  | .vObj fields => (lookupField k fields).getD .vUndefined
  | _ => .vUndefined

/-- JavaScript property write `fields[k] = v`: overwrites the existing
binding in place (keeping its position) or appends a new one. -/
def setField (fields : JSFields) (k : String) (v : JSVal) : JSFields :=
  match fields with
  | .nil => .cons k v .nil
  | .cons k2 v2 rest =>
      if k2 = k then .cons k2 v rest else .cons k2 v2 (setField rest k v)

/-- First element of a JavaScript array, or a default: `arr[0]` yields
undefined on an empty array, which the caller passes as the default. -/
def JSList.headD : JSList → JSVal → JSVal
  | .nil, d => d
  | .cons a _, _ => a

/- Embedding of the `fast-deep-equal` package (`dequal` in the source):
structural equality, with object fields compared per-key (same key count,
every key of the left object bound in the right one to a deep-equal value).
The source's shortcut `a === b` for reference-equal values is subsumed:
reference equality implies structural equality, and the modelled values
carry no NaN. -/
mutual

/-- Deep value equality of two JavaScript values (fast-deep-equal). -/
def dequal : JSVal → JSVal → Bool
  | .vArr as, .vArr bs => dequalList as bs
  | .vObj fa, .vObj fb => fieldsLength fa == fieldsLength fb && dequalFields fa fb
  | a, b => a == b

def dequalList : JSList → JSList → Bool
  | .nil, .nil => true
  | .cons a as, .cons b bs => dequal a b && dequalList as bs
  | _, _ => false

def dequalFields : JSFields → JSFields → Bool
  | .nil, _ => true
  | .cons k v rest, fb =>
      (match lookupField k fb with
       | some w => dequal v w
       | none => false) && dequalFields rest fb

end

/-- Mutable provider fields (constructor lines 52-80 of the source):
the private `_state.isConnected` (null before first determination),
`_state.accounts` (null until the first accepted update), `_state.isUnlocked`,
and the public `selectedAddress`, `chainId`, `networkVersion`. The
deprecation-warning booleans are a pure side channel and are not modelled. -/
structure ProviderState where
  isConnected : Option Bool
  accounts : Option JSList
  isUnlocked : Bool
  selectedAddress : JSVal
  chainId : Option String
  networkVersion : Option String
deriving DecidableEq, Repr

/-- Initial provider state set up by the constructor. -/
def initialState : ProviderState :=
  { isConnected := none
    accounts := none
    isUnlocked := false
    selectedAddress := .vNull
    chainId := none
    networkVersion := none }

/-- Diagnostic log entries produced by the handlers, identified by call site
(the exact message strings live in the source and in src/messages.js). -/
inductive LogEntry where
  | invalidAccounts
  | ethAccountsAnomaly
  | invalidNetwork
  | invalidIsUnlocked
  | streamDisconnect (streamName : String)
deriving DecidableEq, Repr

/-- Events emitted on the provider, with their payloads. -/
inductive Event where
  | accountsChanged (accounts : JSList)
  | chainChanged (chainId : String)
  | chainIdChanged (chainId : String)
  | networkChanged (networkVersion : String)
  | disconnect (code : Nat) (reason : String)
  | close (code : Nat) (reason : String)
  | connect (chainId : Option String)
  | message (type : String) (data : JSVal)
  | notification (payload : JSVal)
deriving DecidableEq, Repr

/-- Modelled from the spec: the fixed generic reason string
`messages.errors.disconnected()` used by `_handleDisconnect` (the file
src/messages.js is not among the sources; the spec says only that it is a
fixed generic reason string). -/
def disconnectedReason : String :=
  "MetaMask: Disconnected from MetaMask background process."

/-- Result of running one handler: the new provider state, the events
emitted (in order), the diagnostics logged (in order), and the payloads of
fire-and-forget internal RPC requests issued. -/
structure Effects where
  state : ProviderState
  events : List Event
  logs : List LogEntry
  rpc : List JSVal
deriving DecidableEq, Repr

/-- Effects of a handler that does nothing. -/
def noEffects (s : ProviderState) : Effects :=
  { state := s, events := [], logs := [], rpc := [] }

/-- Comparison `dequal(this._state.accounts, _accounts)` of the stored
accounts (null until first accepted update) with an incoming array: a null
left operand is deep-equal to nothing (fast-deep-equal returns false for
null versus an array). -/
def dequalStored : Option JSList → JSList → Bool
  | none, _ => false
  | some a, b => dequalList a b

/-- Defensive coercion at the top of `_handleAccountsChanged` (lines
368-377): a non-array argument is replaced by the empty array. -/
def accountsList (accounts : JSVal) : JSList :=
  match accounts with
  | .vArr l => l
  | _ => .nil

/-- Embedding of `_handleAccountsChanged(accounts, isEthAccounts, isInternal)`
(lines 366-411). A non-array argument is logged and replaced by the empty
array; the accounts are stored and `accountsChanged` is emitted exactly when
the (coerced) argument is not deep-equal to the stored accounts, with an
extra anomaly log when an `eth_accounts` response changes already-known
accounts outside an internal refresh; `selectedAddress` is reassigned to
`_accounts[0] || null` whenever it differs from `_accounts[0]` (strict
equality; for the primitive address values strict equality is value
equality, and for reference-equal objects skipping the assignment preserves
the same value). The web3 `defaultAccount` mirroring at lines 400-410
touches only the external legacy object, not the provider state. -/
def handleAccountsChanged (s : ProviderState) (accounts : JSVal)
    (isEthAccounts : Bool) (isInternal : Bool) : Effects :=
  let acc : JSList := accountsList accounts
  let invalidLogs : List LogEntry :=
    if isArrayB accounts then [] else [.invalidAccounts]
  let changed : Bool := ! dequalStored s.accounts acc
  let anomalyLogs : List LogEntry :=
    if changed && isEthAccounts && s.accounts.isSome && !isInternal
    then [.ethAccountsAnomaly] else []
  let newAccounts : Option JSList := if changed then some acc else s.accounts
  let events : List Event := if changed then [.accountsChanged acc] else []
  let first : JSVal := acc.headD .vUndefined
  let newSel : JSVal :=
    if s.selectedAddress = first then s.selectedAddress else jsOr first .vNull
  { state := { s with accounts := newAccounts, selectedAddress := newSel }
    events := events
    logs := invalidLogs ++ anomalyLogs
    rpc := [] }

/-- JavaScript `c.startsWith("0x")`, implemented on the character list so
that it evaluates by kernel reduction. -/
def startsWith0x (c : String) : Bool :=
  match c.data with
  | '0' :: 'x' :: _ => true
  | _ => false

/-- Validation at the top of `_handleChainChanged` (lines 427-436): the
chainId must be a string starting with "0x" (hence non-empty) and the
networkVersion a string. -/
def chainInfoValid (chainId networkVersion : JSVal) : Bool :=
  match chainId, networkVersion with
  | .vStr c, .vStr _ => startsWith0x c
  | _, _ => false

/-- Embedding of `_handleChainChanged({chainId, networkVersion})` (lines
425-446), taking the two destructured fields. Invalid input is logged and
discarded; on valid input, if either field differs from the stored value,
both are updated and `chainChanged`, `chainIdChanged` and `networkChanged`
are emitted in source order; a no-op pair emits nothing. -/
def handleChainChanged (s : ProviderState) (chainId networkVersion : JSVal) :
    Effects :=
  match chainId, networkVersion with
  | .vStr c, .vStr n =>
      if ! startsWith0x c then
        { state := s, events := [], logs := [.invalidNetwork], rpc := [] }
      else if s.chainId = some c ∧ s.networkVersion = some n then
        noEffects s
      else
        { state := { s with chainId := some c, networkVersion := some n }
          events := [.chainChanged c, .chainIdChanged c, .networkChanged n]
          logs := []
          rpc := [] }
  | _, _ => { state := s, events := [], logs := [.invalidNetwork], rpc := [] }

/-- Payload `{ method: "eth_accounts", params: [] }` of the internal
account resynchronization request issued on an unlock transition. -/
def ethAccountsPayload : JSVal :=
  .vObj (.cons "method" (.vStr "eth_accounts")
    (.cons "params" (.vArr .nil) .nil))

/-- Embedding of `_handleUnlockStateChanged(isUnlocked)` (lines 455-481).
A non-boolean argument is logged and discarded; an unchanged value is a
no-op; a transition to true stores the flag and issues a fire-and-forget
internal `eth_accounts` request; a transition to false stores the flag and
applies the empty accounts array through `_handleAccountsChanged`. -/
def handleUnlockStateChanged (s : ProviderState) (isUnlocked : JSVal) :
    Effects :=
  match isUnlocked with
  | .vBool b =>
      if b = s.isUnlocked then noEffects s
      else if b then
        { state := { s with isUnlocked := b }
          events := []
          logs := []
          rpc := [ethAccountsPayload] }
      else
        handleAccountsChanged { s with isUnlocked := b } (.vArr .nil)
          false false
  | _ => { state := s, events := [], logs := [.invalidIsUnlocked], rpc := [] }

/-- Embedding of `_handleDisconnect(streamName, err)` (lines 346-360): logs
a stream-disconnect warning, emits `disconnect` and `close` with code 1011
and the fixed reason exactly when `_state.isConnected` is truthy (that is,
equal to true; both null and false are falsy), and always sets
`_state.isConnected` to false. -/
def handleDisconnect (s : ProviderState) (streamName : String) : Effects :=
  { state := { s with isConnected := some false }
    events :=
      if s.isConnected = some true then
        [.disconnect 1011 disconnectedReason, .close 1011 disconnectedReason]
      else []
    logs := [.streamDisconnect streamName]
    rpc := [] }

/-- Outcome of the argument validation at the top of `request(args)` (lines
219-243). `invalidArgs` is the Invalid-Request rejection for a non-object or
array argument; `invalidMethod` is the Invalid-Request rejection for a
method that is missing, not a string, or empty; `destructureTypeError` is
the TypeError raised by `const { method, params } = args` when `args` is
null (null passes the first guard because `typeof null` is "object");
`proceed` carries the method and params forwarded to `_rpcRequest`. Both
Invalid-Request rejections carry the original argument as diagnostic data. -/
inductive RequestOutcome where
  | invalidArgs (data : JSVal)
  | invalidMethod (data : JSVal)
  | destructureTypeError
  | proceed (method : String) (params : JSVal)
deriving DecidableEq, Repr

/-- Embedding of the validation phase of `request(args)` (lines 219-243). -/
def requestValidate (args : JSVal) : RequestOutcome :=
  if typeOf args ≠ "object" ∨ isArrayB args = true then
    .invalidArgs args
  else if args = .vNull then
    .destructureTypeError
  else
    match jsGet args "method" with
    | .vStr m => if m = "" then .invalidMethod args else .proceed m (jsGet args "params")
    | _ => .invalidMethod args

/-- Whether a request outcome is an Invalid-Request rejection. -/
def isInvalidRequest : RequestOutcome → Bool
  | .invalidArgs _ => true
  | .invalidMethod _ => true
  | _ => false

/-- Diagnostic data attached to an Invalid-Request rejection. -/
def invalidRequestData : RequestOutcome → Option JSVal
  | .invalidArgs d => some d
  | .invalidMethod d => some d
  | _ => none

/-- Payload mutation performed by `_rpcRequest` before dispatch (lines
317-321): on a non-array payload whose `jsonrpc` field is absent or falsy,
the field is set to the string "2.0"; arrays are forwarded untouched. (On a
non-array, non-object payload the property write is a silent no-op in
non-strict mode; `_rpcRequest` is never reached with a null payload by the
modelled entry points.) -/
def rpcRequestSent (payload : JSVal) : JSVal :=
  match payload with
  | .vObj fields =>
      if jsFalsy (jsGet (.vObj fields) "jsonrpc") then
        .vObj (setField fields "jsonrpc" (.vStr "2.0"))
      else .vObj fields
  | other => other

/-- Whether `_rpcRequest` wraps the callback with the accounts intercept
(lines 317-337): the payload is not an array and its method is
`eth_accounts` or `eth_requestAccounts`. -/
def rpcIntercepts (payload : JSVal) : Bool :=
  !(isArrayB payload) &&
    (jsGet payload "method" == .vStr "eth_accounts" ||
      jsGet payload "method" == .vStr "eth_requestAccounts")

/-- Effects applied when the dispatch pipeline delivers a response `res` for
a request issued through `_rpcRequest` (lines 329-336), BEFORE the original
caller's callback runs: on an intercepted payload the wrapped callback first
passes `res.result || []` to `_handleAccountsChanged`, with the
legacy-accounts flag set exactly when the method is `eth_accounts`, and only
then invokes the original callback; on any other payload the original
callback runs directly with no state change. The `state` field of the
result is therefore the provider state the original caller observes. -/
def rpcDeliver (s : ProviderState) (payload : JSVal) (isInternal : Bool)
    (res : JSVal) : Effects :=
  if rpcIntercepts payload then
    handleAccountsChanged s (jsOr (jsGet res "result") (.vArr .nil))
      (jsGet payload "method" == .vStr "eth_accounts") isInternal
  else noEffects s

/-- Embedding of a call to `request(args)` up to dispatch: the validation
outcome, the provider state when `request` returns control (unchanged — the
body never writes provider state), and the payloads handed to the dispatch
pipeline (on success, the fresh `{ method, params }` object after
`_rpcRequest` defaults its `jsonrpc` field). -/
def requestCall (s : ProviderState) (args : JSVal) :
    RequestOutcome × ProviderState × List JSVal :=
  match requestValidate args with
  | .proceed m p =>
      (.proceed m p, s,
        [rpcRequestSent (.vObj (.cons "method" (.vStr m)
          (.cons "params" p .nil)))])
  | o => (o, s, [])

/-- Outcome of the synchronous-emulation path `_sendSync(payload)` (lines
656-687): either a result value together with a flag recording whether the
payload was additionally forwarded asynchronously (only for
`eth_uninstallFilter`), or the synchronously thrown Unsupported-Method
error (`messages.errors.unsupportedSync`, thrown, not rejected). -/
inductive SyncOutcome where
  | ok (result : JSVal) (forwarded : Bool)
  | unsupported
deriving DecidableEq, Repr

/-- Embedding of `_sendSync(payload)` (lines 656-687), switching on
`payload.method`: `eth_accounts` yields `[selectedAddress]` when it is
truthy and the empty array otherwise; `eth_coinbase` yields
`selectedAddress || null`; `eth_uninstallFilter` forwards the payload and
yields true; `net_version` yields `networkVersion || null`; anything else
throws Unsupported-Method. (The surrounding response envelope
`{id, jsonrpc, result}` copies `result` unchanged.) -/
def sendSync (s : ProviderState) (payload : JSVal) : SyncOutcome :=
  if jsGet payload "method" = .vStr "eth_accounts" then
    .ok (if jsTruthy s.selectedAddress
      then .vArr (.cons s.selectedAddress .nil) else .vArr .nil) false
  else if jsGet payload "method" = .vStr "eth_coinbase" then
    .ok (jsOr s.selectedAddress .vNull) false
  else if jsGet payload "method" = .vStr "eth_uninstallFilter" then
    .ok (.vBool true) true
  else if jsGet payload "method" = .vStr "net_version" then
    .ok (jsOr (match s.networkVersion with
      | some n => .vStr n
      | none => .vNull) .vNull) false
  else .unsupported

/-- Payload `{ method: "net_version" }` used to exercise the
synchronous-emulation path. -/
def netVersionPayload : JSVal :=
  .vObj (.cons "method" (.vStr "net_version") .nil)

/-- Well-formedness invariant of the derived field: `selectedAddress` is
either null or a truthy value. It holds in the initial state and is
preserved by every handler, because the only assignment is
`_accounts[0] || null`, whose value is null or truthy. -/
def selOk (s : ProviderState) : Prop :=
  s.selectedAddress = .vNull ∨ jsFalsy s.selectedAddress = false

instance (s : ProviderState) : Decidable (selOk s) := by
  unfold selOk; infer_instance

/-- Whether the `method` read off a request argument fails the check
`typeof method !== 'string' || !method` of `request` (line 230). -/
def methodNotValid (args : JSVal) : Bool :=
  match jsGet args "method" with
  | .vStr m => m == ""
  | _ => true

/- Helper lemmas shared by the claim theorems. -/

theorem dequalList_nil_right : ∀ (A : JSList), dequalList A .nil = true ↔ A = .nil := by
  intro A
  cases A <;> simp [dequalList]

theorem dequalStored_nil_iff (oa : Option JSList) :
    dequalStored oa .nil = true ↔ oa = some .nil := by
  cases oa with
  | none => simp [dequalStored]
  | some A => simp [dequalStored, dequalList_nil_right]

theorem lookup_setField_ne (fields : JSFields) (k k2 : String) (v : JSVal)
    (h : k ≠ k2) : lookupField k (setField fields k2 v) = lookupField k fields := by
  match fields with
  | .nil => simp [setField, lookupField, Ne.symm h]
  | .cons a b rest =>
      have ih := lookup_setField_ne rest k k2 v h
      by_cases ha : a = k2
      · subst ha
        have hak : ¬ (a = k) := fun he => h (he ▸ rfl)
        simp [setField, lookupField, hak]
      · simp [setField, lookupField, ha, ih]

theorem lookup_setField_eq (fields : JSFields) (k2 : String) (v : JSVal) :
    lookupField k2 (setField fields k2 v) = some v := by
  match fields with
  | .nil => simp [setField, lookupField]
  | .cons a b rest =>
      have ih := lookup_setField_eq rest k2 v
      by_cases ha : a = k2
      · subst ha; simp [setField, lookupField]
      · simp [setField, lookupField, ha, ih]

theorem chain_sets_networkVersion (s : ProviderState) (c n : String)
    (hc : startsWith0x c = true) :
    (handleChainChanged s (.vStr c) (.vStr n)).state.networkVersion = some n := by
  simp only [handleChainChanged, hc, Bool.not_true, Bool.false_eq_true, if_false]
  split
  · rename_i h
    simp [noEffects, h.2]
  · rfl

/-- Claim C7: for every input where the chainId is not a string, is empty,
or does not start with "0x", or where the networkVersion is not a string,
`_handleChainChanged` logs one error, mutates neither `chainId` nor
`networkVersion` (nor anything else), emits no event, and does not throw
(the embedding is a total function). -/
theorem C7_invalid_chain_noop (s : ProviderState) (cid nv : JSVal)
    (h : chainInfoValid cid nv = false) :
    handleChainChanged s cid nv
      = { state := s, events := [], logs := [LogEntry.invalidNetwork], rpc := [] } := by
  cases cid <;> cases nv <;> simp_all [chainInfoValid, handleChainChanged]

/-- Claim C7 witness: a chainId missing the "0x" marker is rejected without
mutation. -/
theorem C7_witness :
    chainInfoValid (.vStr "1") (.vStr "1") = false
    ∧ handleChainChanged initialState (.vStr "1") (.vStr "1")
      = { state := initialState, events := [], logs := [LogEntry.invalidNetwork], rpc := [] } :=
  ⟨by decide, C7_invalid_chain_noop initialState (.vStr "1") (.vStr "1") (by decide)⟩

/-- Claim C8: every transport-failure signal sets `isConnected` to false;
the `disconnect` and `close` events (code 1011, fixed reason) are emitted
exactly when `isConnected` was true at the time of the call, so a session
that never connected, and a repeated failure after disconnection, produce
no disconnect event. -/
theorem C8_disconnect_once (s : ProviderState) (nm nm2 : String) :
    (handleDisconnect s nm).state.isConnected = some false
    ∧ (handleDisconnect s nm).events
      = (if s.isConnected = some true then
          [Event.disconnect 1011 disconnectedReason,
            Event.close 1011 disconnectedReason]
        else [])
    ∧ (handleDisconnect (handleDisconnect s nm).state nm2).events = [] := by
  refine ⟨rfl, rfl, ?_⟩
  simp [handleDisconnect]

/-- Claim C2: for every valid pair (a string chainId starting with "0x" and
a string networkVersion) that differs from the stored values (as the
claim's own change-detection rule requires: a change event fires if either
field differs, never for a no-op pair — in particular from the initial
null state), applying the pair twice in succession emits `chainChanged`,
`chainIdChanged` and `networkChanged` exactly once each, all on the first
call; the second call is a complete no-op; both stored fields equal the
pair after either call. -/
theorem C2_chain_pair_idempotent (s : ProviderState) (c n : String)
    (hc : startsWith0x c = true)
    (hne : ¬ (s.chainId = some c ∧ s.networkVersion = some n)) :
    (handleChainChanged s (.vStr c) (.vStr n)).events
      = [Event.chainChanged c, Event.chainIdChanged c, Event.networkChanged n]
    ∧ (handleChainChanged s (.vStr c) (.vStr n)).state.chainId = some c
    ∧ (handleChainChanged s (.vStr c) (.vStr n)).state.networkVersion = some n
    ∧ handleChainChanged (handleChainChanged s (.vStr c) (.vStr n)).state
        (.vStr c) (.vStr n)
      = noEffects (handleChainChanged s (.vStr c) (.vStr n)).state := by
  simp only [handleChainChanged, hc, Bool.not_true, Bool.false_eq_true, if_false,
    if_neg hne]
  simp [noEffects]

/-- Claim C2 witness: the pair ("0x1", "1") applied twice from the initial
state. -/
theorem C2_witness :
    startsWith0x "0x1" = true
    ∧ ¬ (initialState.chainId = some "0x1" ∧ initialState.networkVersion = some "1")
    ∧ ((handleChainChanged initialState (.vStr "0x1") (.vStr "1")).events
        = [Event.chainChanged "0x1", Event.chainIdChanged "0x1", Event.networkChanged "1"]
      ∧ (handleChainChanged initialState (.vStr "0x1") (.vStr "1")).state.chainId = some "0x1"
      ∧ (handleChainChanged initialState (.vStr "0x1") (.vStr "1")).state.networkVersion = some "1"
      ∧ handleChainChanged (handleChainChanged initialState (.vStr "0x1") (.vStr "1")).state
          (.vStr "0x1") (.vStr "1")
        = noEffects (handleChainChanged initialState (.vStr "0x1") (.vStr "1")).state) :=
  ⟨by decide, by decide,
    C2_chain_pair_idempotent initialState "0x1" "1" (by decide) (by decide)⟩

/-- Claim C6: an accounts update whose (array) argument is deep-equal to
the stored accounts emits no `accountsChanged` event and leaves the stored
accounts unchanged; `accountsChanged` is emitted exactly when the new
sequence differs from the stored one under `dequal`, the deep value
comparison (the embedding has no reference identity, so only value
comparison is expressible — and `dequal` is exactly what line 380 tests). -/
theorem C6_deep_equal_detection (s : ProviderState) (A B : JSList)
    (ie ii : Bool) (hA : s.accounts = some A) :
    (handleAccountsChanged s (.vArr B) ie ii).events
      = (if dequalList A B then [] else [Event.accountsChanged B])
    ∧ (handleAccountsChanged s (.vArr B) ie ii).state.accounts
      = (if dequalList A B then some A else some B) := by
  simp only [handleAccountsChanged, accountsList, dequalStored, hA]
  cases hd : dequalList A B <;> simp [hd, hA]

/-- Claim C6 witness: re-applying a structurally equal copy of the stored
single-account array is a no-op; a genuinely different array emits. -/
theorem C6_witness :
    ({ initialState with accounts := some (.cons (.vStr "0xa") .nil) } :
      ProviderState).accounts = some (.cons (.vStr "0xa") .nil)
    ∧ ((handleAccountsChanged { initialState with accounts := some (.cons (.vStr "0xa") .nil) }
          (.vArr (.cons (.vStr "0xa") .nil)) false false).events
        = (if dequalList (.cons (.vStr "0xa") .nil) (.cons (.vStr "0xa") .nil)
            then [] else [Event.accountsChanged (.cons (.vStr "0xa") .nil)])
      ∧ (handleAccountsChanged { initialState with accounts := some (.cons (.vStr "0xa") .nil) }
          (.vArr (.cons (.vStr "0xa") .nil)) false false).state.accounts
        = (if dequalList (.cons (.vStr "0xa") .nil) (.cons (.vStr "0xa") .nil)
            then some (.cons (.vStr "0xa") .nil) else some (.cons (.vStr "0xa") .nil))) :=
  ⟨by decide,
    C6_deep_equal_detection { initialState with accounts := some (.cons (.vStr "0xa") .nil) }
      (.cons (.vStr "0xa") .nil) (.cons (.vStr "0xa") .nil) false false (by decide)⟩

/-- Helper: under the invariant `selOk`, the `selectedAddress` left by an
accounts update is `_accounts[0] || null` — the first element of the
coerced array when that element is truthy, and null otherwise (also when
the array is empty and `_accounts[0]` is undefined). -/
theorem sel_after_accounts_update (s : ProviderState) (accounts : JSVal)
    (ie ii : Bool) (h : selOk s) :
    (handleAccountsChanged s accounts ie ii).state.selectedAddress
      = jsOr ((accountsList accounts).headD .vUndefined) .vNull := by
  simp only [handleAccountsChanged]
  by_cases heq : s.selectedAddress = (accountsList accounts).headD .vUndefined
  · simp only [heq, if_pos rfl]
    rw [← heq]
    rcases h with hnull | htruthy
    · rw [hnull]; decide
    · simp [jsOr, htruthy]
  · simp [heq]

/-- Helper: the stored accounts left by an accounts update are the coerced
argument when it differed (under `dequal`) from the previous value, and are
left untouched otherwise. -/
theorem accounts_after_accounts_update (s : ProviderState) (accounts : JSVal)
    (ie ii : Bool) :
    (handleAccountsChanged s accounts ie ii).state.accounts
      = (if dequalStored s.accounts (accountsList accounts)
          then s.accounts else some (accountsList accounts))
    ∧ (handleAccountsChanged s accounts ie ii).events
      = (if dequalStored s.accounts (accountsList accounts)
          then [] else [Event.accountsChanged (accountsList accounts)]) := by
  simp only [handleAccountsChanged]
  cases hd : dequalStored s.accounts (accountsList accounts) <;> simp [hd]

/-- Claim C1 counterexample: the claim states that after an accepted update
with a non-empty accounts sequence, `selectedAddress` equals the first
element of that sequence. Applying the accepted array [""] (an array, hence
accepted; the empty string is a falsy value) from the initial state leaves
`selectedAddress` null, because line 397 assigns `_accounts[0] || null`:
null is not the first element "". -/
theorem C1_counterexample :
    (handleAccountsChanged initialState (.vArr (.cons (.vStr "") .nil))
        false false).state.accounts = some (.cons (.vStr "") .nil)
    ∧ (handleAccountsChanged initialState (.vArr (.cons (.vStr "") .nil))
        false false).state.selectedAddress = JSVal.vNull
    ∧ JSVal.vNull ≠ JSVal.vStr "" := by decide

/-- Claim C1 (amended): after every update accepted by
`_handleAccountsChanged` — the sole assignment site of `selectedAddress` —
the field equals `_accounts[0] || null`: the first element of the applied
sequence when that element is truthy, and null when the sequence is empty
OR its first element is falsy (e.g. the empty string); the chain and
disconnect handlers never change `selectedAddress` (the unlock handler only
reaches it through the accounts update itself, and the sync path only reads
it). The hypothesis `selOk` is the invariant that `selectedAddress` is null
or truthy, true of every reachable state. -/
theorem C1_selectedAddress_derived (s : ProviderState) (accounts : JSVal)
    (ie ii : Bool) (cid nv : JSVal) (nm : String) (h : selOk s) :
    (handleAccountsChanged s accounts ie ii).state.selectedAddress
      = jsOr ((accountsList accounts).headD .vUndefined) .vNull
    ∧ (handleChainChanged s cid nv).state.selectedAddress = s.selectedAddress
    ∧ (handleDisconnect s nm).state.selectedAddress = s.selectedAddress := by
  refine ⟨sel_after_accounts_update s accounts ie ii h, ?_, rfl⟩
  cases cid <;> cases nv <;> simp only [handleChainChanged]
  split_ifs <;> simp [noEffects]

/-- Claim C1 witness: a truthy single account is selected; the chain and
disconnect handlers leave `selectedAddress` alone. -/
theorem C1_witness :
    selOk initialState
    ∧ (handleAccountsChanged initialState (.vArr (.cons (.vStr "0xabc") .nil))
        false false).state.selectedAddress = JSVal.vStr "0xabc" :=
  ⟨by decide,
    ((C1_selectedAddress_derived initialState (.vArr (.cons (.vStr "0xabc") .nil))
        false false (.vStr "0x1") (.vStr "1") "MetaMask" (by decide)).1).trans
      (by decide)⟩

/-- Claim C5: from any state with `isUnlocked` true (and the reachable-state
invariant `selOk`), `_handleUnlockStateChanged(false)` routes the empty
accounts array through `_handleAccountsChanged` itself (first conjunct: the
whole effect IS that accounts update, so it is subject to exactly the same
change detection), leaving the stored accounts empty and `selectedAddress`
null; `accountsChanged` (with the empty array) is emitted whenever the
previous accounts were not already the (stored) empty array — in particular
whenever they were non-empty — and is not emitted when they were already
empty. -/
theorem C5_lock_clears_accounts (s : ProviderState)
    (hu : s.isUnlocked = true) (h : selOk s) :
    handleUnlockStateChanged s (.vBool false)
      = handleAccountsChanged { s with isUnlocked := false } (.vArr .nil)
          false false
    ∧ (handleUnlockStateChanged s (.vBool false)).state.accounts
      = some JSList.nil
    ∧ (handleUnlockStateChanged s (.vBool false)).state.selectedAddress
      = JSVal.vNull
    ∧ (s.accounts ≠ some JSList.nil →
        (handleUnlockStateChanged s (.vBool false)).events
          = [Event.accountsChanged JSList.nil])
    ∧ (s.accounts = some JSList.nil →
        (handleUnlockStateChanged s (.vBool false)).events = []) := by
  have hstep : handleUnlockStateChanged s (.vBool false)
      = handleAccountsChanged { s with isUnlocked := false } (.vArr .nil)
          false false := by
    simp [handleUnlockStateChanged, hu]
  have hacc := accounts_after_accounts_update
    { s with isUnlocked := false } (.vArr .nil) false false
  have hsel := sel_after_accounts_update
    { s with isUnlocked := false } (.vArr .nil) false false h
  refine ⟨hstep, ?_, ?_, ?_, ?_⟩
  · rw [hstep, hacc.1]
    by_cases hs : s.accounts = some JSList.nil <;>
      simp_all [accountsList, dequalStored_nil_iff]
  · rw [hstep, hsel]; decide
  · intro hs
    rw [hstep, hacc.2]
    have : dequalStored s.accounts (accountsList (.vArr .nil)) = false := by
      rcases hb : dequalStored s.accounts (accountsList (.vArr .nil))
      · rfl
      · exact absurd ((dequalStored_nil_iff s.accounts).mp hb) hs
    simp_all [accountsList]
  · intro hs
    rw [hstep, hacc.2]
    simp_all [accountsList, dequalStored, dequalList]

/-- Concrete unlocked state with one known account, used by witnesses. -/
def unlockedOneAccount : ProviderState :=
  { isConnected := none
    accounts := some (.cons (.vStr "0xa") .nil)
    isUnlocked := true
    selectedAddress := .vStr "0xa"
    chainId := none
    networkVersion := none }

/-- Claim C5 witness: locking with one known account clears it and emits. -/
theorem C5_witness :
    unlockedOneAccount.isUnlocked = true
    ∧ selOk unlockedOneAccount
    ∧ (handleUnlockStateChanged unlockedOneAccount (.vBool false)).state.accounts
      = some JSList.nil
    ∧ (handleUnlockStateChanged unlockedOneAccount (.vBool false)).events
      = [Event.accountsChanged JSList.nil] :=
  ⟨rfl, by decide,
    (C5_lock_clears_accounts unlockedOneAccount rfl (by decide)).2.1,
    (C5_lock_clears_accounts unlockedOneAccount rfl (by decide)).2.2.2.1
      (by decide)⟩

/-- Claim C3 counterexample: null defeats the Invalid-Request guard of
`request` because `typeof null` is "object" and null is not an array, yet
null has no method property; the subsequent destructuring
`const { method, params } = args` then throws a TypeError — not the
Invalid-Request error (carrying the argument as data) that the claim
promises for every non-object / method-less argument. -/
theorem C3_counterexample :
    requestValidate .vNull = .destructureTypeError
    ∧ isInvalidRequest (requestValidate .vNull) = false
    ∧ invalidRequestData (requestValidate .vNull) = none := by decide

/-- Claim C3 (amended): for every argument that is an array, a non-object,
or a non-null object whose method property is missing, not a string, or the
empty string, `request(args)` rejects with an Invalid-Request error carrying
the original argument as diagnostic data, the provider state is untouched
and nothing is dispatched; the excluded argument null also rejects without
touching state, but with a destructuring TypeError instead of
Invalid-Request. -/
theorem C3_invalid_request_rejected (s : ProviderState) (args : JSVal)
    (h : typeOf args ≠ "object" ∨ isArrayB args = true
         ∨ (args ≠ .vNull ∧ methodNotValid args = true)) :
    isInvalidRequest (requestValidate args) = true
    ∧ invalidRequestData (requestValidate args) = some args
    ∧ requestCall s args = (requestValidate args, s, []) := by
  have hout : requestValidate args = .invalidArgs args
      ∨ requestValidate args = .invalidMethod args := by
    by_cases h1 : typeOf args ≠ "object" ∨ isArrayB args = true
    · left
      simp [requestValidate, h1]
    · right
      rcases h with h | h | ⟨h2, h3⟩
      · exact absurd (Or.inl h) h1
      · exact absurd (Or.inr h) h1
      · unfold methodNotValid at h3
        cases hm : jsGet args "method" with
        | vStr m =>
            rw [hm] at h3
            simp only [beq_iff_eq] at h3
            simp [requestValidate, h1, h2, hm, h3]
        | vNull => rw [hm] at h3; simp [requestValidate, h1, h2, hm]
        | vUndefined => rw [hm] at h3; simp [requestValidate, h1, h2, hm]
        | vBool b => rw [hm] at h3; simp [requestValidate, h1, h2, hm]
        | vNum n => rw [hm] at h3; simp [requestValidate, h1, h2, hm]
        | vArr l => rw [hm] at h3; simp [requestValidate, h1, h2, hm]
        | vObj f => rw [hm] at h3; simp [requestValidate, h1, h2, hm]
  rcases hout with ho | ho <;>
    simp [ho, isInvalidRequest, invalidRequestData, requestCall]

/-- Claim C3 witness: an object with no method field is rejected as
Invalid-Request with itself as data, and the state is untouched. -/
theorem C3_witness :
    (typeOf (.vObj .nil) ≠ "object" ∨ isArrayB (.vObj .nil) = true
      ∨ ((JSVal.vObj .nil) ≠ .vNull ∧ methodNotValid (.vObj .nil) = true))
    ∧ (isInvalidRequest (requestValidate (.vObj .nil)) = true
      ∧ invalidRequestData (requestValidate (.vObj .nil)) = some (.vObj .nil)
      ∧ requestCall initialState (.vObj .nil)
        = (requestValidate (.vObj .nil), initialState, [])) :=
  ⟨by decide, C3_invalid_request_rejected initialState (.vObj .nil) (by decide)⟩

/-- Claim C4: for a non-array request payload whose method is
`eth_accounts` or `eth_requestAccounts`, `_rpcRequest` wraps the callback,
so that when the dispatch pipeline delivers the result it is first passed
to the accounts handler — as `res.result || []`, with the legacy-call flag
set exactly when the method is `eth_accounts` — and only afterwards does
the original callback run: the provider state the caller observes
(`(rpcDeliver ...).state` by construction) is the post-update state, so
accounts and `selectedAddress` already reflect the result. Array (batch)
payloads are not intercepted and are forwarded unmodified. -/
theorem C4_accounts_intercept (s : ProviderState) (fields : JSFields)
    (res : JSVal) (internal : Bool) (m : String) (l : JSList)
    (hm : m = "eth_accounts" ∨ m = "eth_requestAccounts")
    (hfield : jsGet (.vObj fields) "method" = .vStr m) :
    rpcIntercepts (.vObj fields) = true
    ∧ rpcDeliver s (.vObj fields) internal res
        = handleAccountsChanged s (jsOr (jsGet res "result") (.vArr .nil))
            (m == "eth_accounts") internal
    ∧ rpcIntercepts (.vArr l) = false
    ∧ rpcDeliver s (.vArr l) internal res = noEffects s
    ∧ rpcRequestSent (.vArr l) = .vArr l := by
  have hb : (JSVal.vStr "eth_requestAccounts" == JSVal.vStr "eth_accounts")
      = false := by decide
  rcases hm with hm | hm <;> subst hm <;>
    simp [rpcIntercepts, rpcDeliver, rpcRequestSent, hfield, isArrayB,
      noEffects, hb]

/-- Claim C4 witness: an `eth_requestAccounts` response with one account is
applied to the state before the caller sees it, with the legacy flag off. -/
theorem C4_witness :
    (("eth_requestAccounts" : String) = "eth_accounts"
        ∨ ("eth_requestAccounts" : String) = "eth_requestAccounts")
    ∧ jsGet (.vObj (.cons "method" (.vStr "eth_requestAccounts") .nil)) "method"
      = .vStr "eth_requestAccounts"
    ∧ rpcIntercepts (.vObj (.cons "method" (.vStr "eth_requestAccounts") .nil)) = true
    ∧ rpcDeliver initialState
        (.vObj (.cons "method" (.vStr "eth_requestAccounts") .nil)) false
        (.vObj (.cons "result" (.vArr (.cons (.vStr "0xabc") .nil)) .nil))
      = handleAccountsChanged initialState
          (jsOr (jsGet (.vObj (.cons "result" (.vArr (.cons (.vStr "0xabc") .nil)) .nil))
            "result") (.vArr .nil))
          (("eth_requestAccounts" : String) == "eth_accounts") false :=
  ⟨Or.inr rfl, by decide,
    (C4_accounts_intercept initialState
      (.cons "method" (.vStr "eth_requestAccounts") .nil)
      (.vObj (.cons "result" (.vArr (.cons (.vStr "0xabc") .nil)) .nil))
      false "eth_requestAccounts" .nil (Or.inr rfl) (by decide)).1,
    (C4_accounts_intercept initialState
      (.cons "method" (.vStr "eth_requestAccounts") .nil)
      (.vObj (.cons "result" (.vArr (.cons (.vStr "0xabc") .nil)) .nil))
      false "eth_requestAccounts" .nil (Or.inr rfl) (by decide)).2.1⟩

/-- Claim C9 counterexample: the empty string is a valid networkVersion
(`typeof "" === "string"`), so `_handleChainChanged` stores it; but
`_sendSync` for net_version returns `this.networkVersion || null`, and the
empty string is falsy — the emulation returns null, not the stored "". -/
theorem C9_counterexample :
    (handleChainChanged initialState (.vStr "0x1") (.vStr "")).state.networkVersion
      = some ""
    ∧ sendSync (handleChainChanged initialState (.vStr "0x1") (.vStr "")).state
        netVersionPayload
      = SyncOutcome.ok .vNull false
    ∧ JSVal.vNull ≠ JSVal.vStr "" := by decide

/-- Claim C9 (amended): the net_version synchronous emulation returns null
when no network sync has occurred (`networkVersion` still at its initial
null); after `_handleChainChanged` accepts a pair whose networkVersion is
non-empty, it returns exactly that stored value; for the accepted but falsy
empty-string networkVersion it returns null rather than the stored "". -/
theorem C9_net_version_sync (s : ProviderState) (c n : String)
    (hc : startsWith0x c = true) (hn : n ≠ "") :
    (s.networkVersion = none →
      sendSync s netVersionPayload = .ok .vNull false)
    ∧ sendSync (handleChainChanged s (.vStr c) (.vStr n)).state
        netVersionPayload = .ok (.vStr n) false
    ∧ sendSync (handleChainChanged s (.vStr c) (.vStr "")).state
        netVersionPayload = .ok .vNull false := by
  have h1 := chain_sets_networkVersion s c n hc
  have h2 := chain_sets_networkVersion s c "" hc
  refine ⟨?_, ?_, ?_⟩
  · intro h0
    simp [sendSync, netVersionPayload, jsGet, lookupField, h0, jsOr, jsFalsy]
  · simp [sendSync, netVersionPayload, jsGet, lookupField, h1, jsOr, jsFalsy, hn]
  · simp [sendSync, netVersionPayload, jsGet, lookupField, h2, jsOr, jsFalsy]

/-- Claim C9 witness: before any sync net_version yields null; after the
pair ("0x1", "1") is applied it yields "1". -/
theorem C9_witness :
    startsWith0x "0x1" = true
    ∧ ("1" : String) ≠ ""
    ∧ initialState.networkVersion = none
    ∧ sendSync initialState netVersionPayload = .ok .vNull false
    ∧ sendSync (handleChainChanged initialState (.vStr "0x1") (.vStr "1")).state
        netVersionPayload = .ok (.vStr "1") false :=
  ⟨by decide, by decide, rfl,
    (C9_net_version_sync initialState "0x1" "1" (by decide) (by decide)).1 rfl,
    (C9_net_version_sync initialState "0x1" "1" (by decide) (by decide)).2.1⟩

/-- Claim C10: on every non-array object payload (as built or forwarded by
`request`, `sendAsync`, `send` and `enable`, all of which funnel into
`_rpcRequest`), the payload forwarded to the dispatch pipeline has its
`jsonrpc` field set to the string "2.0" whenever that field was absent or
falsy, is forwarded byte-for-byte otherwise, and in either case every field
other than `jsonrpc` is unchanged. (The mutation happens in place on the
payload object `_rpcRequest` received; object identity itself is not
observable in the embedding, so the theorem states the effect on the
payload's value.) -/
theorem C10_jsonrpc_default (fields : JSFields) (k : String)
    (hk : k ≠ "jsonrpc") :
    (jsFalsy (jsGet (.vObj fields) "jsonrpc") = true →
      jsGet (rpcRequestSent (.vObj fields)) "jsonrpc" = .vStr "2.0")
    ∧ (jsFalsy (jsGet (.vObj fields) "jsonrpc") = false →
      rpcRequestSent (.vObj fields) = .vObj fields)
    ∧ jsGet (rpcRequestSent (.vObj fields)) k = jsGet (.vObj fields) k := by
  refine ⟨?_, ?_, ?_⟩
  · intro hf
    simp only [jsGet] at hf
    simp [rpcRequestSent, jsGet, hf, lookup_setField_eq]
  · intro hf
    simp only [jsGet] at hf
    simp [rpcRequestSent, jsGet, hf]
  · by_cases hf : jsFalsy (jsGet (.vObj fields) "jsonrpc") = true
    · simp only [jsGet] at hf
      simp [rpcRequestSent, jsGet, hf,
        lookup_setField_ne fields k "jsonrpc" _ hk]
    · simp only [jsGet] at hf
      simp [rpcRequestSent, jsGet, hf]

/-- Claim C10 witness: a payload without a jsonrpc field gains
jsonrpc = "2.0" and keeps its method field. -/
theorem C10_witness :
    ("method" : String) ≠ "jsonrpc"
    ∧ (jsFalsy (jsGet (.vObj (.cons "method" (.vStr "eth_chainId") .nil)) "jsonrpc") = true →
        jsGet (rpcRequestSent (.vObj (.cons "method" (.vStr "eth_chainId") .nil))) "jsonrpc"
          = .vStr "2.0")
    ∧ jsGet (rpcRequestSent (.vObj (.cons "method" (.vStr "eth_chainId") .nil))) "method"
      = jsGet (.vObj (.cons "method" (.vStr "eth_chainId") .nil)) "method" :=
  ⟨by decide,
    (C10_jsonrpc_default (.cons "method" (.vStr "eth_chainId") .nil) "method"
      (by decide)).1,
    (C10_jsonrpc_default (.cons "method" (.vStr "eth_chainId") .nil) "method"
      (by decide)).2.2⟩
